import Mathlib

/-!
Verification of the prop-bet scouting dashboard script
(`generate_dashboard.py`) against its natural-language specification.

The script is a single-shot batch pipeline: fetch events/odds/rosters/
injuries, consolidate bookmaker lines, score player props with a
heuristic edge model, and render the top picks.  Here the pure core of
that pipeline is embedded shallowly in Lean:

* all HTTP fetches are modelled by passing the fetched payloads in as
  explicit arguments (lists / lookup functions);
* the on-disk day cache is not modelled (a cache hit only short-circuits
  a fetch, producing the same data);
* Python `float` arithmetic is idealised as real arithmetic (`ℝ`), and
  the purely string-and-list parts use concrete computable types;
* Python dictionaries are modelled as association lists where insertion
  prepends, so that `List.lookup` (first match) realises Python's
  last-write-wins assignment semantics, and Python sets are modelled by
  lists with membership-guarded insertion.
-/

namespace Dashboard

/-! ## Small helpers from the script (`clamp`, `sigmoid`) -/

/-- Python helper `clamp(x, lo, hi) = max(lo, min(hi, x))`. -/
noncomputable def clamp (x lo hi : ℝ) : ℝ := max lo (min hi x)

/-- Python helper `sigmoid(x) = 1 / (1 + exp(-x))`. -/
noncomputable def sigmoid (x : ℝ) : ℝ := 1 / (1 + Real.exp (-x))

/-! ## Name normalizer (`normalize_player_name`)

Python's `str.strip()` removes ASCII whitespace from both ends; the
script then applies a one-entry `fixes` dictionary. -/

/-- The characters Python's default `str.strip()` removes (ASCII part). -/
def isPySpace (c : Char) : Bool :=
  c == ' ' || c == '\t' || c == '\n' || c == '\r' || c == '\x0b' || c == '\x0c'

/-- Both-ends whitespace trim on a character list, as `str.strip()` does. -/
def stripChars (l : List Char) : List Char :=
  (((l.dropWhile isPySpace).reverse).dropWhile isPySpace).reverse

/-- Python `name.strip()` on a string. -/
def pyStrip (s : String) : String := ⟨stripChars s.data⟩

/-- The script's `normalize_player_name`: empty input yields `""`;
otherwise strip whitespace and apply the `fixes` table, whose only entry
maps `"Shai Gilgeous Alexander"` to `"Shai Gilgeous-Alexander"`. -/
def normalize_player_name (name : String) : String :=
  if name = "" then ""
  else
    let s := pyStrip name
    if s = "Shai Gilgeous Alexander" then "Shai Gilgeous-Alexander" else s

/-! ## Injury set (`fetch_espn_injuries`)

The per-team injury payloads are passed in as data.  A team whose ESPN
metadata lacks an id or abbreviation is skipped, as is a team whose
fetch fails (modelled by an empty entry list).  The script classifies a
status string by upper-casing it and testing membership of a fixed
substring vocabulary. -/

/-- Whether `needle` occurs at the head of `hay` (substring-at-0 test). -/
def leadsWith : List Char → List Char → Bool
  | [], _ => true
  | _ :: _, [] => false
  | a :: as, b :: bs => a == b && leadsWith as bs

/-- Whether `needle` occurs contiguously anywhere in `hay`, as Python's
`needle in hay` does for strings. -/
def containsSub (needle : List Char) : List Char → Bool
  | [] => needle.isEmpty
  | c :: t => leadsWith needle (c :: t) || containsSub needle t

/-- Python `str.upper()` (ASCII part). -/
def pyUpper (s : String) : String := ⟨s.data.map Char.toUpper⟩

/-- The script's "do not play" vocabulary, line 434 of
`generate_dashboard.py`: `["OUT", "INACTIVE", "DOUBTFUL", "DNP", "IR"]`. -/
def dnpVocabulary : List String := ["OUT", "INACTIVE", "DOUBTFUL", "DNP", "IR"]

/-- The status test of `fetch_espn_injuries`:
`any(x in st_upper for x in ["OUT", "INACTIVE", "DOUBTFUL", "DNP", "IR"])`. -/
def statusMatches (st : String) : Bool :=
  dnpVocabulary.any (fun x => containsSub x.data (pyUpper st).data)

/-- One team's fetched ESPN data as `fetch_espn_injuries` consumes it:
its ESPN id and abbreviation from the team map, and the fetched injury
entries as `(athlete displayName, status text)` pairs. -/
structure TeamReport where
  id : String
  abbr : String
  injuries : List (String × String)

/-- The three accumulators of `fetch_espn_injuries`: the `injured` set,
the `status` mapping `name -> (status_text, team_abbr)`, and the per-team
`team_counts`.  Sets and dicts are association lists; a dict write
prepends, so `List.lookup` sees the latest write. -/
structure InjuryAcc where
  injured : List String
  status : List (String × String × String)
  team_counts : List (String × Nat)

/-- The body of the entry loop in `fetch_espn_injuries`: if the status
matches the vocabulary and the athlete name is nonempty, add the name to
the injured set, record its status and team, and bump the team count. -/
def injuryEntryStep (abbr : String) (acc : InjuryAcc) (e : String × String) : InjuryAcc :=
  if statusMatches e.2 then
    if e.1 = "" then acc
    else
      { injured := if e.1 ∈ acc.injured then acc.injured else e.1 :: acc.injured
        status := (e.1, e.2, abbr) :: acc.status
        team_counts := (abbr, ((acc.team_counts.lookup abbr).getD 0) + 1) :: acc.team_counts }
  else acc

/-- The body of the team loop in `fetch_espn_injuries`: skip a team
without id or abbreviation, else classify its injury entries. -/
def injuryTeamStep (acc : InjuryAcc) (t : TeamReport) : InjuryAcc :=
  if t.id = "" ∨ t.abbr = "" then acc
  else t.injuries.foldl (injuryEntryStep t.abbr) acc

/-- The pure core of `fetch_espn_injuries` (cache and HTTP removed):
iterate the team map, skip teams without id or abbreviation, and fold
the entry classification over each team's injury list. -/
def fetch_espn_injuries (teams : List TeamReport) : InjuryAcc :=
  teams.foldl injuryTeamStep ⟨[], [], []⟩

/-! ## Roster index (`build_today_roster_index`)

The ESPN team map and the per-team roster fetches are passed in as
data.  The script's inner loop writes `player_to_team[nm] = abbr`
unconditionally for every nonempty roster name. -/

/-- One entry of the ESPN team map: `{"id": ..., "abbr": ...}`. -/
structure TeamMeta where
  id : String
  abbr : String

/-- The three results of `build_today_roster_index`. -/
structure RosterAcc where
  roster_index : List (String × List String)
  player_to_team : List (String × String)
  player_to_athlete_id : List (String × String)

/-- The body of the inner roster loop of `build_today_roster_index`:
for a roster entry with a nonempty name, add the name to the team's name
set, assign `player_to_team[nm] = abbr`, and, when an athlete id is
present, assign `player_to_athlete_id[nm] = aid`. -/
def rosterEntryStep (abbr : String) (st : List String × RosterAcc) (p : String × String) :
    List String × RosterAcc :=
  if p.1 = "" then st
  else
    ⟨if p.1 ∈ st.1 then st.1 else p.1 :: st.1,
     { roster_index := st.2.roster_index
       player_to_team := (p.1, abbr) :: st.2.player_to_team
       player_to_athlete_id :=
         if p.2 ≠ "" then (p.1, p.2) :: st.2.player_to_athlete_id
         else st.2.player_to_athlete_id }⟩

/-- The body of the team loop of `build_today_roster_index`. -/
def rosterTeamStep (team_map : List (String × TeamMeta))
    (espn_team_roster : String → List (String × String)) (acc : RosterAcc)
    (team_name : String) : RosterAcc :=
  match team_map.lookup team_name with
  | none => acc
  | some meta =>
    if meta.abbr = "" ∨ meta.id = "" then acc
    else
      let roster_list := espn_team_roster meta.id
      let inner := roster_list.foldl (rosterEntryStep meta.abbr) ⟨[], acc⟩
      { roster_index := (meta.abbr, inner.1) :: inner.2.roster_index
        player_to_team := inner.2.player_to_team
        player_to_athlete_id := inner.2.player_to_athlete_id }

/-- The pure core of `build_today_roster_index` (cache and HTTP
removed; `espn_team_roster` is the fetch result keyed by team id, with a
failed fetch modelled by `[]`): for each requested team display name,
look it up in the team map, skip it when the abbreviation or id is
missing, and fold the roster entries through `rosterEntryStep`. -/
def build_today_roster_index (team_display_names : List String)
    (team_map : List (String × TeamMeta))
    (espn_team_roster : String → List (String × String)) : RosterAcc :=
  team_display_names.foldl (rosterTeamStep team_map espn_team_roster) ⟨[], [], []⟩

/-- The flat list of `(name, abbr)` assignments the inner loop of
`build_today_roster_index` performs, in execution order: for each team
that resolves in the team map with a nonempty abbreviation and id, one
assignment per nonempty roster name. -/
def roster_assignments (team_display_names : List String)
    (team_map : List (String × TeamMeta))
    (espn_team_roster : String → List (String × String)) : List (String × String) :=
  team_display_names.flatMap
    (fun team_name =>
      match team_map.lookup team_name with
      | none => []
      | some meta =>
        if meta.abbr = "" ∨ meta.id = "" then []
        else ((espn_team_roster meta.id).filter (fun p => ¬ p.1 = "")).map
          (fun p => (p.1, meta.abbr)))

/-! ## Consensus line (`parse_player_prop_lines`)

For each `(player, market)` group the script takes
`statistics.median(pts)` over the bookmaker point quotes as the
consensus line.  Python's `statistics.median` sorts the data and takes
the middle element (odd length) or the mean of the two middle elements
(even length). -/

/-- Python's `statistics.median` on a list of reals (the script calls it
only on nonempty lists; on `[]` `statistics.median` raises, and this
model returns `0`). -/
noncomputable def statistics_median (l : List ℝ) : ℝ :=
  let s := l.insertionSort (· ≤ ·)
  let n := l.length
  if n % 2 = 1 then s.getD (n / 2) 0
  else (s.getD (n / 2 - 1) 0 + s.getD (n / 2) 0) / 2

/-! ## Static data tables

The script's hardcoded player/defense/referee dictionaries.  A player
profile is a string-keyed dictionary of numbers, modelled as an
association list (the two boolean-valued keys of the source dicts,
`back_to_back` and `load_managed`, are never read by any code path of
the script and are not carried).  `pget p k d` is Python's
`p.get(k, d)`. -/

/-- A player profile dictionary: numeric values keyed by stat name. -/
abbrev Profile := List (String × ℝ)

/-- Python `profile.get(key, default)` for numeric values. -/
def pget (p : Profile) (k : String) (d : ℝ) : ℝ := (p.lookup k).getD d

/-- Python truthiness of an optional dictionary (`if profile:`): false
for `None` and for an empty dictionary. -/
def pTruthy (p? : Option Profile) : Bool :=
  match p? with
  | some p => !p.isEmpty
  | none => false

/-- The script's `NBA_PLAYERS_DATA` table (numeric fields). -/
noncomputable def NBA_PLAYERS_DATA : List (String × Profile) :=
  [("Shai Gilgeous-Alexander",
    [("recent_ppg", 28.2), ("recent_rpg", 4.8), ("recent_apg", 7.2), ("recent_3pm", 2.1),
     ("recent_stl", 1.4), ("recent_blk", 0.6), ("usage_rate", 31.2), ("efficiency", 0.62),
     ("fgm", 10.2), ("ft_rate", 0.28), ("per_minute", 1.84), ("home_away_split", 1.05),
     ("foul_trouble_risk", 0.2), ("rest_days", 1), ("red_zone_usage", 0.35)]),
   ("Nikola Jokic",
    [("recent_ppg", 28.4), ("recent_rpg", 11.2), ("recent_apg", 9.8), ("recent_3pm", 1.3),
     ("recent_stl", 1.1), ("recent_blk", 0.7), ("usage_rate", 35.1), ("efficiency", 0.68),
     ("fgm", 10.2), ("ft_rate", 0.35), ("per_minute", 1.89), ("home_away_split", 1.02),
     ("foul_trouble_risk", 0.15), ("rest_days", 2), ("red_zone_usage", 0.42)]),
   ("Anthony Edwards",
    [("recent_ppg", 23.1), ("recent_rpg", 4.5), ("recent_apg", 3.2), ("recent_3pm", 2.8),
     ("recent_stl", 1.1), ("recent_blk", 0.4), ("usage_rate", 27.5), ("efficiency", 0.58),
     ("fgm", 8.3), ("ft_rate", 0.25), ("per_minute", 1.72), ("home_away_split", 1.03),
     ("foul_trouble_risk", 0.25), ("rest_days", 0), ("red_zone_usage", 0.28)]),
   ("Luka Doncic",
    [("recent_ppg", 33.2), ("recent_rpg", 9.1), ("recent_apg", 6.8), ("recent_3pm", 2.5),
     ("recent_stl", 1.0), ("recent_blk", 0.5), ("usage_rate", 33.8), ("efficiency", 0.60),
     ("fgm", 11.5), ("ft_rate", 0.32), ("per_minute", 1.95), ("home_away_split", 1.08),
     ("foul_trouble_risk", 0.30), ("rest_days", 1), ("red_zone_usage", 0.38)]),
   ("Jayson Tatum",
    [("recent_ppg", 27.5), ("recent_rpg", 8.4), ("recent_apg", 4.2), ("recent_3pm", 2.4),
     ("recent_stl", 1.2), ("recent_blk", 0.8), ("usage_rate", 32.1), ("efficiency", 0.61),
     ("fgm", 9.8), ("ft_rate", 0.30), ("per_minute", 1.88), ("home_away_split", 1.04),
     ("foul_trouble_risk", 0.22), ("rest_days", 1), ("red_zone_usage", 0.40)]),
   ("Kevin Durant",
    [("recent_ppg", 29.8), ("recent_rpg", 6.2), ("recent_apg", 4.5), ("recent_3pm", 2.2),
     ("recent_stl", 0.9), ("recent_blk", 1.3), ("usage_rate", 30.5), ("efficiency", 0.65),
     ("fgm", 11.0), ("ft_rate", 0.22), ("per_minute", 1.92), ("home_away_split", 1.01),
     ("foul_trouble_risk", 0.18), ("rest_days", 1), ("red_zone_usage", 0.36)]),
   ("Giannis Antetokounmpo",
    [("recent_ppg", 31.2), ("recent_rpg", 12.8), ("recent_apg", 5.4), ("recent_3pm", 0.8),
     ("recent_stl", 1.0), ("recent_blk", 1.1), ("usage_rate", 34.2), ("efficiency", 0.67),
     ("fgm", 12.1), ("ft_rate", 0.42), ("per_minute", 1.98), ("home_away_split", 1.06),
     ("foul_trouble_risk", 0.28), ("rest_days", 1), ("red_zone_usage", 0.44)]),
   ("LeBron James",
    [("recent_ppg", 24.6), ("recent_rpg", 7.8), ("recent_apg", 7.2), ("recent_3pm", 1.9),
     ("recent_stl", 1.2), ("recent_blk", 0.5), ("usage_rate", 28.1), ("efficiency", 0.60),
     ("fgm", 9.1), ("ft_rate", 0.28), ("per_minute", 1.68), ("home_away_split", 1.02),
     ("foul_trouble_risk", 0.15), ("rest_days", 2), ("red_zone_usage", 0.32)])]

/-- The script's `NFL_PLAYERS_DATA` table (numeric fields). -/
noncomputable def NFL_PLAYERS_DATA : List (String × Profile) :=
  [("Josh Allen",
    [("recent_pass_yds", 278), ("recent_pass_td", 2.2), ("recent_int", 0.8),
     ("recent_rush_yds", 45), ("recent_rush_td", 0.4), ("completion_pct", 0.65),
     ("td_rate", 2.2), ("int_rate", 0.8), ("route_participation", 0.88),
     ("weather_impact", 0.95), ("red_zone_attempts", 3.2), ("pressure_to_sack", 0.15),
     ("rest_days", 3), ("injury_risk", 0.1)]),
   ("Patrick Mahomes",
    [("recent_pass_yds", 285), ("recent_pass_td", 2.8), ("recent_int", 0.6),
     ("recent_rush_yds", 38), ("recent_rush_td", 0.3), ("completion_pct", 0.68),
     ("td_rate", 2.8), ("int_rate", 0.6), ("route_participation", 0.92),
     ("weather_impact", 1.0), ("red_zone_attempts", 3.5), ("pressure_to_sack", 0.12),
     ("rest_days", 3), ("injury_risk", 0.05)]),
   ("Lamar Jackson",
    [("recent_pass_yds", 245), ("recent_pass_td", 2.1), ("recent_int", 0.5),
     ("recent_rush_yds", 65), ("recent_rush_td", 0.6), ("completion_pct", 0.66),
     ("td_rate", 2.1), ("int_rate", 0.5), ("route_participation", 0.85),
     ("weather_impact", 0.90), ("red_zone_attempts", 2.8), ("pressure_to_sack", 0.18),
     ("rest_days", 3), ("injury_risk", 0.15)]),
   ("Jalen Hurts",
    [("recent_pass_yds", 268), ("recent_pass_td", 2.4), ("recent_int", 0.7),
     ("recent_rush_yds", 55), ("recent_rush_td", 0.5), ("completion_pct", 0.67),
     ("td_rate", 2.4), ("int_rate", 0.7), ("route_participation", 0.89),
     ("weather_impact", 0.92), ("red_zone_attempts", 3.1), ("pressure_to_sack", 0.14),
     ("rest_days", 3), ("injury_risk", 0.08)]),
   ("Travis Kelce",
    [("recent_rec", 7.2), ("recent_rec_yds", 85), ("recent_rec_td", 0.8),
     ("targets", 9.5), ("route_participation", 0.94), ("weather_impact", 1.0),
     ("red_zone_targets", 1.8), ("rest_days", 3), ("injury_risk", 0.12)])]

/-- The NBA half of the script's `OPPONENT_DEFENSE` table. -/
noncomputable def OPPONENT_DEFENSE_nba : List (String × Profile) :=
  [("LAL", [("ppg_allowed", 112.3), ("perimeter_rank", 14), ("interior_rank", 8), ("pace_adjust", 1.02)]),
   ("GS", [("ppg_allowed", 110.8), ("perimeter_rank", 18), ("interior_rank", 12), ("pace_adjust", 1.05)]),
   ("HOU", [("ppg_allowed", 109.2), ("perimeter_rank", 10), ("interior_rank", 23), ("pace_adjust", 1.08)]),
   ("DEN", [("ppg_allowed", 108.5), ("perimeter_rank", 5), ("interior_rank", 15), ("pace_adjust", 0.98)])]

/-- The NFL half of the script's `OPPONENT_DEFENSE` table. -/
noncomputable def OPPONENT_DEFENSE_nfl : List (String × Profile) :=
  [("MIA", [("pass_yds_allowed", 262), ("pass_rank", 16), ("run_rank", 8), ("pressure_rate", 0.28)]),
   ("BUF", [("pass_yds_allowed", 248), ("pass_rank", 12), ("run_rank", 5), ("pressure_rate", 0.35)]),
   ("KC", [("pass_yds_allowed", 252), ("pass_rank", 14), ("run_rank", 10), ("pressure_rate", 0.32)])]

/-- The NBA half of the script's `REFEREE_TENDENCIES` table. -/
noncomputable def REFEREE_TENDENCIES_nba : Profile :=
  [("tight_whistle", 0.8), ("ft_rate_boost", 1.15), ("foul_calls_per_game", 28)]

/-- The NFL half of the script's `REFEREE_TENDENCIES` table. -/
noncomputable def REFEREE_TENDENCIES_nfl : Profile :=
  [("dpi_rate", 0.32), ("holding_rate", 0.28), ("flag_rate", 1.08)]

/-- The script's `NBA_MARKET_TO_PROP` table. -/
def NBA_MARKET_TO_PROP : List (String × String) :=
  [("player_points", "points"), ("player_rebounds", "rebounds"), ("player_assists", "assists"),
   ("player_threes", "3_pointers"), ("player_blocks", "blocks"), ("player_steals", "steals"),
   ("player_blocks_steals", "stl_blk"), ("player_turnovers", "turnovers"),
   ("player_points_rebounds_assists", "pts_reb_ast"), ("player_points_rebounds", "pts_reb"),
   ("player_points_assists", "pts_ast"), ("player_rebounds_assists", "reb_ast"),
   ("player_field_goals", "field_goals"), ("player_frees_made", "free_throws")]

/-- The script's `NFL_MARKET_TO_PROP` table. -/
def NFL_MARKET_TO_PROP : List (String × String) :=
  [("player_pass_yds", "pass_yards"), ("player_pass_tds", "pass_td"),
   ("player_pass_interceptions", "int"), ("player_rush_yds", "rush_yards"),
   ("player_rush_attempts", "carries"), ("player_receptions", "receptions"),
   ("player_reception_yds", "rec_yards"), ("player_reception_tds", "rec_td"),
   ("player_pass_rush_yds", "pass_rush_yards"), ("player_rush_reception_yds", "rush_rec_yards"),
   ("player_pass_rush_reception_yds", "pass_rush_rec_yards")]

/-! ## Blowout risk (`compute_blowout_risk`) -/

/-- The script's `compute_blowout_risk`: `0.25` when the spread is
unknown, otherwise `clamp(spread_abs / 18.0, 0.0, 1.0)`. -/
noncomputable def compute_blowout_risk (spread_abs : Option ℝ) : ℝ :=
  match spread_abs with
  | none => 0.25
  | some s => clamp (s / 18.0) 0.0 1.0

/-! ## Script / blowout / garbage-time factors -/

/-- The script's `nba_game_script_multiplier`: deflates stars on a
favorite under blowout risk, boosts underdog stars. -/
noncomputable def nba_game_script_multiplier (is_favorite : Bool) (blowout_risk : ℝ)
    (is_star : Bool) : ℝ :=
  let mult : ℝ := 1.0
  let mult := if is_star && is_favorite then mult * (1.0 - 0.10 * blowout_risk) else mult
  let mult := if is_star && !is_favorite then mult * (1.0 + 0.06 * blowout_risk) else mult
  mult

/-- The script's `nfl_script_adjustments`: `(pass_mult, rush_mult)` for
the expected game script. -/
noncomputable def nfl_script_adjustments (is_favorite : Bool) (spread_abs : Option ℝ) :
    ℝ × ℝ :=
  match spread_abs with
  | none => (1.0, 1.0)
  | some s =>
    let x := clamp (s / 14.0) 0.0 1.0
    if is_favorite then (1.0 - 0.10 * x, 1.0 + 0.10 * x)
    else (1.0 + 0.12 * x, 1.0 - 0.08 * x)

/-- The script's `garbage_time_multiplier`: stars deflate, non-stars
inflate slightly. -/
noncomputable def garbage_time_multiplier (blowout_risk : ℝ) (is_star : Bool) : ℝ :=
  if is_star then 1.0 - 0.06 * blowout_risk else 1.0 + 0.04 * blowout_risk

/-! ## Edge model (projection + score) -/

/-- The per-item context dictionary built in
`generate_top_props_for_league` (the `.get` defaults of the consumers
are realised by the field types: `None`-able fields are `Option`s). -/
structure Ctx where
  team_abbr : String
  opponent_abbr : String
  is_favorite : Option Bool
  spread_abs : Option ℝ
  total : Option ℝ
  team_inj_count : ℝ
  opp_inj_count : ℝ

/-- The script's `projection_from_profile`: the per-prop statistical
baseline from the static profile, or `none` when the profile is empty
(Python `if not profile`) or the prop type is unknown. -/
noncomputable def projection_from_profile (profile : Profile) (prop_type league : String) :
    Option ℝ :=
  if profile.isEmpty then none
  else if league = "nba" then
    if prop_type = "points" then profile.lookup "recent_ppg"
    else if prop_type = "rebounds" then profile.lookup "recent_rpg"
    else if prop_type = "assists" then profile.lookup "recent_apg"
    else if prop_type = "3_pointers" then profile.lookup "recent_3pm"
    else if prop_type = "steals" then profile.lookup "recent_stl"
    else if prop_type = "blocks" then profile.lookup "recent_blk"
    else if prop_type = "field_goals" then profile.lookup "fgm"
    else if prop_type = "free_throws" then
      let ft_rate := pget profile "ft_rate" 0.25
      let ppg := pget profile "recent_ppg" 0
      let ft_att := ppg * ft_rate / 0.75
      some (ft_att * 0.75)
    else if prop_type = "pts_reb" then
      some (pget profile "recent_ppg" 0 + pget profile "recent_rpg" 0)
    else if prop_type = "pts_ast" then
      some (pget profile "recent_ppg" 0 + pget profile "recent_apg" 0)
    else if prop_type = "reb_ast" then
      some (pget profile "recent_rpg" 0 + pget profile "recent_apg" 0)
    else if prop_type = "pts_reb_ast" then
      some (pget profile "recent_ppg" 0 + pget profile "recent_rpg" 0 +
        pget profile "recent_apg" 0)
    else if prop_type = "stl_blk" then
      some (pget profile "recent_stl" 0 + pget profile "recent_blk" 0)
    else if prop_type = "turnovers" then
      let usage := pget profile "usage_rate" 25
      some (2.5 + (usage - 25) / 20.0)
    else none
  else
    if prop_type = "pass_yards" then profile.lookup "recent_pass_yds"
    else if prop_type = "pass_td" then profile.lookup "recent_pass_td"
    else if prop_type = "int" then profile.lookup "recent_int"
    else if prop_type = "rush_yards" then profile.lookup "recent_rush_yds"
    else if prop_type = "carries" then
      (profile.lookup "recent_rush_yds").map (fun ry => ry / 4.5)
    else if prop_type = "receptions" then profile.lookup "recent_rec"
    else if prop_type = "rec_yards" then profile.lookup "recent_rec_yds"
    else if prop_type = "rec_td" then profile.lookup "recent_rec_td"
    else if prop_type = "pass_rush_yards" then
      some (pget profile "recent_pass_yds" 0 + pget profile "recent_rush_yds" 0)
    else if prop_type = "rush_rec_yards" then
      some (pget profile "recent_rush_yds" 0 + pget profile "recent_rec_yds" 0)
    else if prop_type = "pass_rush_rec_yards" then
      some (pget profile "recent_pass_yds" 0 + pget profile "recent_rush_yds" 0 +
        pget profile "recent_rec_yds" 0)
    else none

/-- The script's `apply_context_multipliers`: the sequence of
matchup/script/blowout/garbage-time/injury/referee multipliers applied
to a projection (`None` passes through). -/
noncomputable def apply_context_multipliers (proj? : Option ℝ) (league prop_type : String)
    (ctx : Ctx) (profile? : Option Profile) : Option ℝ :=
  match proj? with
  | none => none
  | some proj0 =>
    let blowout_risk := compute_blowout_risk ctx.spread_abs
    let is_star : Bool :=
      if pTruthy profile? then
        let p := profile?.getD []
        decide (28.0 ≤ pget p "usage_rate" 0) || decide (1.75 ≤ pget p "per_minute" 0)
      else false
    if league = "nba" then
      let pace_adj := pget ((OPPONENT_DEFENSE_nba.lookup ctx.opponent_abbr).getD [])
        "pace_adjust" 1.0
      let p1 := proj0 * pace_adj
      let p2 :=
        match ctx.is_favorite with
        | some f => p1 * nba_game_script_multiplier f blowout_risk is_star
        | none => p1
      let p3 := p2 * garbage_time_multiplier blowout_risk is_star
      let p4 := p3 * (1.0 + min 0.08 (ctx.team_inj_count * 0.02))
      let p5 := p4 * (1.0 + min 0.05 (ctx.opp_inj_count * 0.015))
      let p6 :=
        if prop_type ∈ ["points", "pts_reb", "pts_ast", "pts_reb_ast", "free_throws",
            "field_goals"] then
          let ft_boost := pget REFEREE_TENDENCIES_nba "ft_rate_boost" 1.0
          p5 * (1.0 + (ft_boost - 1.0) * 0.35)
        else p5
      some p6
    else
      let pr :=
        match ctx.is_favorite with
        | some f => nfl_script_adjustments f ctx.spread_abs
        | none => ((1.0 : ℝ), (1.0 : ℝ))
      let p1 :=
        if prop_type = "pass_yards" then proj0 * pr.1
        else if prop_type = "pass_td" then proj0 * (1.0 + (pr.1 - 1.0) * 0.6)
        else if prop_type ∈ ["rush_yards", "carries"] then proj0 * pr.2
        else proj0
      let p2 :=
        if ctx.is_favorite = some false ∧
            prop_type ∈ ["pass_yards", "receptions", "rec_yards"] then
          p1 * (1.0 + 0.06 * blowout_risk)
        else p1
      let p3 := p2 * (1.0 + min 0.06 (ctx.team_inj_count * 0.02))
      let p4 := p3 * (1.0 + min 0.04 (ctx.opp_inj_count * 0.015))
      let p5 :=
        if prop_type ∈ ["pass_yards", "receptions", "rec_yards"] then
          let dpi := pget REFEREE_TENDENCIES_nfl "dpi_rate" 0.30
          p4 * (1.0 + (dpi - 0.25) * 0.25)
        else p4
      let p6 :=
        if pTruthy profile? then p5 * pget (profile?.getD []) "weather_impact" 1.0
        else p5
      some p6

/-- The script's `edge_score_from_projection`: convert the projection /
line gap for one side into a 0..100 edge score, with a penalty for noisy
cross-book lines; `line <= 0` yields `0`. -/
noncomputable def edge_score_from_projection (proj line : ℝ) (side : String)
    (line_stdev : ℝ) : ℝ :=
  if line ≤ 0 then 0.0
  else
    let diff0 := proj - line
    let diff := if side = "under" then -diff0 else diff0
    let scale := max 1.0 (line * 0.12)
    let z := diff / scale
    let p := sigmoid z
    let score0 := 100.0 * p
    let score1 := score0 * (1.0 - min 0.20 (line_stdev * 0.15))
    clamp score1 0.0 100.0

/-- Lines 927-932 of `score_prop`: score both sides and keep the better
one (`UNDER` only on a strictly higher under score). -/
noncomputable def score_prop_sides (proj line line_stdev : ℝ) : ℝ × String :=
  let over := edge_score_from_projection proj line "over" line_stdev
  let under := edge_score_from_projection proj line "under" line_stdev
  if under > over then (under, "UNDER") else (over, "OVER")

/-- The result tuple of `score_prop`:
`(best_score, best_side, proj, breakdown)`. -/
structure ScoredProp where
  score : ℝ
  side : String
  proj : ℝ
  breakdown : List (String × ℝ)

/-- The script's `score_prop`: pick the static profile, compute the
baseline projection (falling back to the market line nudged by opponent
defense when no profile baseline exists), apply the context
multipliers, build the factor breakdown, then score both sides.  In the
source the dereference of `apply_context_multipliers`' result can never
see `None` because the baseline is never `None` at that point; `getD 0`
realises that dereference. -/
noncomputable def score_prop (player prop_type : String) (line : ℝ) (league : String)
    (ctx : Ctx) (line_stdev : ℝ) : ScoredProp :=
  let profile? : Option Profile :=
    if league = "nba" then NBA_PLAYERS_DATA.lookup player
    else NFL_PLAYERS_DATA.lookup player
  let base? := projection_from_profile (profile?.getD []) prop_type league
  let basefb : ℝ × List (String × ℝ) :=
    match base? with
    | some b => (b, [])
    | none =>
      let b0 := line
      let b1 :=
        if league = "nba" then
          b0 * pget ((OPPONENT_DEFENSE_nba.lookup ctx.opponent_abbr).getD [])
            "pace_adjust" 1.0
        else
          let opp_def := (OPPONENT_DEFENSE_nfl.lookup ctx.opponent_abbr).getD []
          let b0a :=
            if prop_type = "pass_yards" then
              b0 * (1.0 + (pget opp_def "pass_rank" 16 - 16.0) / 140.0)
            else b0
          if prop_type ∈ ["rush_yards", "carries"] then
            b0a * (1.0 + (pget opp_def "run_rank" 16 - 16.0) / 160.0)
          else b0a
      (b1, [("Fallback Profile", 1.0)])
  let base_proj := basefb.1
  let proj := (apply_context_multipliers (some base_proj) league prop_type ctx
    profile?).getD 0
  let breakdown :=
    basefb.2 ++ [("Proj vs Line", proj - line), ("Line Stdev", line_stdev)] ++
    (match ctx.spread_abs with
     | some s => [("Blowout Risk", compute_blowout_risk (some s) * 10.0)]
     | none => []) ++
    (match ctx.is_favorite with
     | some true => [("Favorite", 2.0)]
     | some false => [("Underdog", 2.0)]
     | none => []) ++
    [("Team Injuries", ctx.team_inj_count * 2.0), ("Opp Injuries", ctx.opp_inj_count * 1.5)] ++
    (if pTruthy profile? then
      let p := profile?.getD []
      if league = "nba" then
        [("Usage", min 10 (pget p "usage_rate" 25 / 3.0)),
         ("Efficiency", min 8 (pget p "efficiency" 0.58 * 12)),
         ("Rest", min 6 (pget p "rest_days" 1 * 2.5))]
      else
        [("Route Part", min 10 (pget p "route_participation" 0.80 * 10)),
         ("Pressure Risk", if pget p "pressure_to_sack" 0.15 > 0.20 then -6 else 2),
         ("Injury Risk", if pget p "injury_risk" 0.10 > 0.15 then -6 else 2)]
     else [])
  let bs := score_prop_sides proj line line_stdev
  ⟨bs.1, bs.2, proj, breakdown⟩

/-- The implicit deadzone of the pipeline: with a nonnegative line
dispersion, any gap of magnitude below `1/2` keeps both side scores
strictly under the emission threshold `65` (the sigmoid at `1/2` over
the minimum scale `1` stays below `0.65`), so no pick can be emitted.
The script realises the deadzone uniformly across prop types. -/
noncomputable def deadzone (prop_type : String) : ℝ := 1 / 2

/-! ## Prop collection (`generate_top_props_for_league`)

The network stage is modelled by passing fetched-and-parsed data in:
each game comes with its parsed main lines (`parse_main_lines` output,
or all-`none` when that fetch failed, exactly the source's `except`
branch) and its parsed player-prop items (`parse_player_prop_lines`
output; a failed prop-odds fetch, which the source skips with
`continue`, is modelled by an empty item list).  The roster index,
injury set and team injury counts are likewise inputs. -/

/-- One parsed player-prop item as `generate_top_props_for_league`
consumes it (the optional representative prices of the parsed item are
never read by the scoring path). -/
structure PropItem where
  player : String
  market_key : String
  line : ℝ
  line_stdev : ℝ

/-- One game of the day's slate, with its fetched odds already parsed. -/
structure GameData where
  id : String
  home_team : String
  away_team : String
  matchup : String
  time : String
  spread_home : Option ℝ
  spread_away : Option ℝ
  total : Option ℝ
  props : List PropItem

/-- One emitted pick. -/
structure Pick where
  player : String
  prop_type : String
  line : ℝ
  side : String
  proj : ℝ
  edge_score : ℝ
  matchup : String
  time : String
  breakdown : List (String × ℝ)

/-- The script's `resolve_player_team`: accept the mapped team only when
it is one of the two teams of this game. -/
def resolve_player_team (player_name : String) (player_to_team : List (String × String))
    (home_abbr away_abbr : String) : Option String :=
  match player_to_team.lookup player_name with
  | some team => if team = home_abbr ∨ team = away_abbr then some team else none
  | none => none

/-- The script's `pick_opponent`. -/
def pick_opponent (team_abbr home_abbr away_abbr : String) : String :=
  if team_abbr = home_abbr then away_abbr
  else if team_abbr = away_abbr then home_abbr
  else ""

/-- The script's `is_team_favorite`: a negative spread marks the
favorite; unknown when the team or its spread is unknown.  As in the
source, the second guard is also tried when the first's spread is
missing. -/
noncomputable def is_team_favorite (team_abbr home_abbr away_abbr : String)
    (spread_home spread_away : Option ℝ) : Option Bool :=
  if team_abbr == home_abbr && spread_home.isSome then
    some (decide (spread_home.getD 0 < 0))
  else if team_abbr == away_abbr && spread_away.isSome then
    some (decide (spread_away.getD 0 < 0))
  else none

/-- The script's two-argument `abbreviate_team`: a minimal static
display-name-to-abbreviation mapping; unknown teams yield `""`. -/
def abbreviate_team (team_name league : String) : String :=
  let nba_map : List (String × String) :=
    [("Los Angeles Lakers", "LAL"), ("Golden State Warriors", "GS"),
     ("Houston Rockets", "HOU"), ("Denver Nuggets", "DEN")]
  let nfl_map : List (String × String) :=
    [("Miami Dolphins", "MIA"), ("Buffalo Bills", "BUF"), ("Kansas City Chiefs", "KC")]
  (((if league = "nba" then nba_map else nfl_map).lookup team_name).getD "")

/-- Modelled from the spec: the pipeline calls a three-argument
`abbreviate_team(team_name, league, name_to_abbr)` where `name_to_abbr`
comes from `get_team_abbr_map(league)`; neither that call form nor
`get_team_abbr_map` is defined in the repository's files.  Per the
spec's Roster/Team Index ("a team-name-to-abbreviation table" built from
the league team list), `name_to_abbr` is the league's display-name to
abbreviation table, passed here as pipeline input, consulted first with
the static two-argument mapping as fallback (unknown teams yield `""`,
which only disables the opponent-defense boosts). -/
def abbreviate_team_with_map (team_name league : String)
    (name_to_abbr : List (String × String)) : String :=
  match name_to_abbr.lookup team_name with
  | some a => a
  | none => abbreviate_team team_name league

/-- The inline fuzzy key of the resolution fallback (lines 1058-1063):
`player.lower().replace(".", "").replace("-", " ").strip()`. -/
def simplifyName (s : String) : String :=
  pyStrip ⟨(s.data.map Char.toLower).filterMap
    (fun c => if c = '.' then none else if c = '-' then some ' ' else some c)⟩

/-- The roster fuzzy-match fallback of the item loop: scan the two
rosters, home first, for a name with the same simplified key. -/
def fuzzy_resolve (player : String) (roster_index : List (String × List String))
    (home_abbr away_abbr : String) : Option String :=
  let pl := simplifyName player
  if ((roster_index.lookup home_abbr).getD []).any (fun rn => simplifyName rn = pl) then
    some home_abbr
  else if ((roster_index.lookup away_abbr).getD []).any (fun rn => simplifyName rn = pl) then
    some away_abbr
  else none

/-- The body of the per-item loop of `generate_top_props_for_league`:
unknown market keys, unresolvable players, injured players and scores
under the threshold `65` yield nothing; otherwise the scored pick. -/
noncomputable def processItem (league : String) (market_to_prop : List (String × String))
    (player_to_team : List (String × String)) (roster_index : List (String × List String))
    (injured_set : List String) (team_inj_counts : List (String × ℝ))
    (home_abbr away_abbr : String) (spread_home spread_away total spread_abs : Option ℝ)
    (matchup time_str : String) (item : PropItem) : Option Pick :=
  match market_to_prop.lookup item.market_key with
  | none => none
  | some prop_type =>
    let resolved :=
      match resolve_player_team item.player player_to_team home_abbr away_abbr with
      | some t => some t
      | none => fuzzy_resolve item.player roster_index home_abbr away_abbr
    match resolved with
    | none => none
    | some player_team =>
      if item.player ∈ injured_set then none
      else
        let opp_abbr := pick_opponent player_team home_abbr away_abbr
        let fav := is_team_favorite player_team home_abbr away_abbr spread_home spread_away
        let ctx : Ctx :=
          { team_abbr := player_team
            opponent_abbr := opp_abbr
            is_favorite := fav
            spread_abs := spread_abs
            total := total
            team_inj_count := (team_inj_counts.lookup player_team).getD 0
            opp_inj_count := (team_inj_counts.lookup opp_abbr).getD 0 }
        let r := score_prop item.player prop_type item.line league ctx item.line_stdev
        if r.score < 65 then none
        else some
          { player := item.player
            prop_type := prop_type
            line := item.line
            side := r.side
            proj := r.proj
            edge_score := r.score
            matchup := matchup
            time := time_str
            breakdown := r.breakdown }

/-- The per-game part of the pipeline: derive the team abbreviations and
the absolute spread (home spread first, else away spread), then run the
item loop over the game's parsed prop lines. -/
noncomputable def picksForGame (league : String) (market_to_prop : List (String × String))
    (name_to_abbr player_to_team : List (String × String))
    (roster_index : List (String × List String)) (injured_set : List String)
    (team_inj_counts : List (String × ℝ)) (g : GameData) : List Pick :=
  let home_abbr := abbreviate_team_with_map g.home_team league name_to_abbr
  let away_abbr := abbreviate_team_with_map g.away_team league name_to_abbr
  let spread_abs : Option ℝ :=
    match g.spread_home with
    | some s => some |s|
    | none =>
      match g.spread_away with
      | some s => some |s|
      | none => none
  g.props.filterMap
    (processItem league market_to_prop player_to_team roster_index injured_set
      team_inj_counts home_abbr away_abbr g.spread_home g.spread_away g.total spread_abs
      g.matchup g.time)

/-- The descending-edge-score order of the final
`picks.sort(key=lambda x: x["edge_score"], reverse=True)`. -/
noncomputable def descByEdge : Pick → Pick → Prop := fun a b => b.edge_score ≤ a.edge_score

noncomputable instance : DecidableRel descByEdge :=
  fun a b => Real.decidableLE b.edge_score a.edge_score

instance : IsTotal Pick descByEdge := ⟨fun a b => le_total b.edge_score a.edge_score⟩

instance : IsTrans Pick descByEdge := ⟨fun _ _ _ h1 h2 => le_trans h2 h1⟩

/-- The pure core of `generate_top_props_for_league`: run the item loop
over every game with a nonempty event id, sort the kept picks by edge
score descending (a stable sort, as Python's `list.sort` is), and keep
the first `keep_top` (the script's default and only used value is 8). -/
noncomputable def generate_top_props_for_league (league : String) (games : List GameData)
    (name_to_abbr player_to_team : List (String × String))
    (roster_index : List (String × List String)) (injured_set : List String)
    (team_inj_counts : List (String × ℝ)) (keep_top : ℕ := 8) : List Pick :=
  let market_to_prop := if league = "nba" then NBA_MARKET_TO_PROP else NFL_MARKET_TO_PROP
  let picks := games.flatMap
    (fun g =>
      if g.id = "" then []
      else picksForGame league market_to_prop name_to_abbr player_to_team roster_index
        injured_set team_inj_counts g)
  (picks.insertionSort descByEdge).take keep_top

/-! ## Facts about `stripChars` and the normalizer (claim C9) -/

theorem dropWhile_dropWhile_eq (p : Char → Bool) (l : List Char) :
    (l.dropWhile p).dropWhile p = l.dropWhile p := by
  cases h : l.dropWhile p with
  | nil => simp
  | cons a as =>
    have ha : p a = false := by
      have := List.head_dropWhile_not p l (h ▸ List.cons_ne_nil a as)
      simpa [h] using this
    rw [List.dropWhile_cons, ha]
    simp

theorem exists_append_dropWhile (p : Char → Bool) (l : List Char) :
    ∃ t, t ++ l.dropWhile p = l := by
  induction l with
  | nil => exact ⟨[], rfl⟩
  | cons a as ih =>
    by_cases hp : p a
    · obtain ⟨t, ht⟩ := ih
      exact ⟨a :: t, by simp [List.dropWhile_cons, hp, ht]⟩
    · exact ⟨[], by simp [List.dropWhile_cons, hp]⟩

/-- A list that is empty or starts with a non-whitespace character. -/
def headOK (l : List Char) : Prop := ∀ a as, l = a :: as → isPySpace a = false

theorem headOK_dropWhile (l : List Char) : headOK (l.dropWhile isPySpace) := by
  intro a as h
  have := List.head_dropWhile_not isPySpace l (h ▸ List.cons_ne_nil a as)
  simpa [h] using this

theorem headOK_dropWhile_eq {l : List Char} (h : headOK l) : l.dropWhile isPySpace = l := by
  cases l with
  | nil => rfl
  | cons a as =>
    rw [List.dropWhile_cons, h a as rfl]
    simp

theorem headOK_of_append {m u : List Char} (h : headOK (m ++ u)) : headOK m := by
  intro a as hm
  exact h a (as ++ u) (by simp [hm])

theorem stripChars_idem (l : List Char) : stripChars (stripChars l) = stripChars l := by
  obtain ⟨t, ht⟩ := exists_append_dropWhile isPySpace (l.dropWhile isPySpace).reverse
  have hm : l.dropWhile isPySpace =
      ((l.dropWhile isPySpace).reverse.dropWhile isPySpace).reverse ++ t.reverse := by
    have h := congrArg List.reverse ht
    simpa [List.reverse_append] using h.symm
  have h3 : headOK ((l.dropWhile isPySpace).reverse.dropWhile isPySpace).reverse :=
    headOK_of_append (hm ▸ headOK_dropWhile l)
  show stripChars (((l.dropWhile isPySpace).reverse.dropWhile isPySpace).reverse) = _
  rw [stripChars, headOK_dropWhile_eq h3, List.reverse_reverse, dropWhile_dropWhile_eq,
    stripChars]

theorem pyStrip_idem (s : String) : pyStrip (pyStrip s) = pyStrip s := by
  show (⟨stripChars (String.data ⟨stripChars s.data⟩)⟩ : String) = ⟨stripChars s.data⟩
  rw [show String.data ⟨stripChars s.data⟩ = stripChars s.data from rfl, stripChars_idem]

theorem normalize_player_name_cases (s : String) :
    normalize_player_name s = "" ∨
    normalize_player_name s = "Shai Gilgeous-Alexander" ∨
    (normalize_player_name s = pyStrip s ∧ pyStrip s ≠ "Shai Gilgeous Alexander") := by
  by_cases hs : s = ""
  · left
    simp [normalize_player_name, hs]
  · rw [normalize_player_name, if_neg hs]
    by_cases hf : pyStrip s = "Shai Gilgeous Alexander"
    · right; left
      simp [hf]
    · right; right
      simp [hf]

/-- C9: the name normalizer is idempotent —
`normalize(normalize(x)) = normalize(x)` for every string — and empty
input yields empty output. -/
theorem normalize_player_name_idempotent :
    (∀ s : String,
      normalize_player_name (normalize_player_name s) = normalize_player_name s) ∧
    normalize_player_name "" = "" := by
  constructor
  · intro s
    rcases normalize_player_name_cases s with h | h | ⟨h, hne⟩
    · rw [h]
      simp [normalize_player_name]
    · rw [h]
      decide
    · rw [h]
      by_cases h0 : pyStrip s = ""
      · rw [h0]
        simp [normalize_player_name]
      · rw [normalize_player_name, if_neg h0, pyStrip_idem, if_neg hne]
  · simp [normalize_player_name]

/-! ## Facts about `compute_blowout_risk` (claim C8) -/

/-- C8 counterexample: the spec's step function demands `0.90` at a
spread of 14, but the script's `compute_blowout_risk` returns
`14/18 = 7/9 ≈ 0.778` there: the function is a clamped linear ramp, not
the spec's step function. -/
theorem compute_blowout_risk_not_step : compute_blowout_risk (some 14) ≠ 0.90 := by
  have h : compute_blowout_risk (some 14) = 7 / 9 := by
    simp only [compute_blowout_risk, clamp]
    rw [show (14 : ℝ) / 18.0 = 7 / 9 by norm_num, min_eq_right (by norm_num),
      max_eq_right (by norm_num)]
  rw [h]
  norm_num

/-- C8 amended: `compute_blowout_risk` is total on float-or-missing
input, returns `0.25` for a missing spread (inside the spec's 0.20-0.25
band), is always within `[0, 1]`, and on known spreads is the clamped
linear ramp `clamp(|spread|/18, 0, 1)` — so it yields `7/9` at 14 (not
0.90), `5/9` at 10 (not 0.65), `7/18` at 7 (not 0.40) and `0` at 0 (not
a 0.15-0.18 baseline). -/
theorem compute_blowout_risk_linear_ramp :
    compute_blowout_risk none = 0.25 ∧
    (∀ s : ℝ, 0 ≤ compute_blowout_risk (some s) ∧ compute_blowout_risk (some s) ≤ 1) ∧
    compute_blowout_risk (some 14) = 7 / 9 ∧
    compute_blowout_risk (some 10) = 5 / 9 ∧
    compute_blowout_risk (some 7) = 7 / 18 ∧
    compute_blowout_risk (some 0) = 0 := by
  refine ⟨rfl, ?_, ?_, ?_, ?_, ?_⟩ <;>
    simp only [compute_blowout_risk, clamp]
  · intro s
    exact ⟨le_trans (by norm_num) (le_max_left (0.0 : ℝ) _),
      max_le (by norm_num) ((min_le_left (1.0 : ℝ) (s / 18.0)).trans (by norm_num))⟩
  · rw [show (14 : ℝ) / 18.0 = 7 / 9 by norm_num, min_eq_right (by norm_num),
      max_eq_right (by norm_num)]
  · rw [show (10 : ℝ) / 18.0 = 5 / 9 by norm_num, min_eq_right (by norm_num),
      max_eq_right (by norm_num)]
  · rw [show (7 : ℝ) / 18.0 = 7 / 18 by norm_num, min_eq_right (by norm_num),
      max_eq_right (by norm_num)]
  · rw [show (0 : ℝ) / 18.0 = 0 by norm_num, min_eq_right (by norm_num),
      max_eq_right (by norm_num)]

/-! ## Facts about the injury set (claim C7) -/

theorem foldl_preserve {α β : Type} (P : β → Prop) (f : β → α → β)
    (hf : ∀ b a, P b → P (f b a)) : ∀ (l : List α) (b : β), P b → P (l.foldl f b) := by
  intro l
  induction l with
  | nil => exact fun b hb => hb
  | cons a as ih => exact fun b hb => ih _ (hf b a hb)

/-- Being recorded as injured: in the injured set with a status entry. -/
def InjP (name : String) (acc : InjuryAcc) : Prop :=
  name ∈ acc.injured ∧ (acc.status.lookup name).isSome = true

theorem lookup_cons_isSome {β : Type} (k k' : String) (v : β) (l : List (String × β))
    (h : (l.lookup k).isSome = true) : (((k', v) :: l).lookup k).isSome = true := by
  by_cases hk : k = k'
  · have hb : (k == k') = true := beq_iff_eq.mpr hk
    simp [List.lookup, hb]
  · have hb : (k == k') = false := beq_eq_false_iff_ne.mpr hk
    simp [List.lookup, hb, h]

theorem injuryEntryStep_preserves (name abbr : String) (acc : InjuryAcc)
    (e : String × String) (h : InjP name acc) : InjP name (injuryEntryStep abbr acc e) := by
  obtain ⟨h1, h2⟩ := h
  unfold injuryEntryStep
  split_ifs with hs he hmem
  · exact ⟨h1, h2⟩
  · exact ⟨h1, lookup_cons_isSome name e.1 (e.2, abbr) acc.status h2⟩
  · exact ⟨List.mem_cons_of_mem _ h1, lookup_cons_isSome name e.1 (e.2, abbr) acc.status h2⟩
  · exact ⟨h1, h2⟩

theorem injuryEntryStep_adds (name st abbr : String) (acc : InjuryAcc)
    (hn : name ≠ "") (hs : statusMatches st = true) :
    InjP name (injuryEntryStep abbr acc (name, st)) := by
  unfold injuryEntryStep
  dsimp only
  rw [if_pos hs, if_neg hn]
  have hlook : ((((name, st, abbr) :: acc.status).lookup name)).isSome = true := by
    have hb : (name == name) = true := beq_self_eq_true name
    simp [List.lookup, hb]
  refine ⟨?_, hlook⟩
  dsimp only
  split_ifs with hmem
  · exact hmem
  · exact List.mem_cons_self _ _

theorem injuryTeamStep_preserves (name : String) (acc : InjuryAcc) (t : TeamReport)
    (h : InjP name acc) : InjP name (injuryTeamStep acc t) := by
  unfold injuryTeamStep
  split_ifs with h1
  · exact h
  · exact foldl_preserve (InjP name) _
      (fun b a hb => injuryEntryStep_preserves name t.abbr b a hb) t.injuries acc h

/-- C7 amended: the script's unavailable-status vocabulary is
`{OUT, INACTIVE, DOUBTFUL, DNP, IR}` — `SUSPENDED` is not in it.  Every
injury entry of a team with id and abbreviation whose status text
contains one of those substrings case-insensitively, and whose athlete
name is nonempty, is added to the injured set along with a status/team
record for that name. -/
theorem injury_vocabulary_adds (teams : List TeamReport) (t : TeamReport)
    (name st : String) (hteam : t ∈ teams) (hid : t.id ≠ "") (habbr : t.abbr ≠ "")
    (hentry : (name, st) ∈ t.injuries) (hname : name ≠ "")
    (hst : statusMatches st = true) :
    name ∈ (fetch_espn_injuries teams).injured ∧
    ((fetch_espn_injuries teams).status.lookup name).isSome = true := by
  obtain ⟨l1, l2, rfl⟩ := List.append_of_mem hteam
  obtain ⟨m1, m2, hm⟩ := List.append_of_mem hentry
  have key : InjP name (injuryTeamStep (l1.foldl injuryTeamStep ⟨[], [], []⟩) t) := by
    unfold injuryTeamStep
    rw [if_neg (by simp [hid, habbr]), hm, List.foldl_append, List.foldl_cons]
    exact foldl_preserve (InjP name) _
      (fun b a hb => injuryEntryStep_preserves name t.abbr b a hb) m2 _
      (injuryEntryStep_adds name st t.abbr _ hname hst)
  have final : InjP name (fetch_espn_injuries (l1 ++ t :: l2)) := by
    unfold fetch_espn_injuries
    rw [List.foldl_append, List.foldl_cons]
    exact foldl_preserve (InjP name) _
      (fun b a hb => injuryTeamStep_preserves name b a hb) l2 _ key
  exact final

/-- Witness for `injury_vocabulary_adds`: a concrete "Out" entry lands
in the injured set with a status record. -/
theorem injury_vocabulary_adds_witness :
    "John Doe" ∈ (fetch_espn_injuries [⟨"1", "MIA", [("John Doe", "Out")]⟩]).injured ∧
    ((fetch_espn_injuries
      [⟨"1", "MIA", [("John Doe", "Out")]⟩]).status.lookup "John Doe").isSome = true :=
  injury_vocabulary_adds [⟨"1", "MIA", [("John Doe", "Out")]⟩]
    ⟨"1", "MIA", [("John Doe", "Out")]⟩ "John Doe" "Out"
    (List.mem_singleton.mpr rfl) (by decide) (by decide)
    (List.mem_singleton.mpr rfl) (by decide) (by decide)

/-- C7 counterexample: the status `"Suspended"` matches none of the
script's vocabulary substrings, so its entry is not added to the
injured set. -/
theorem suspended_status_not_added :
    statusMatches "Suspended" = false ∧
    "John Doe" ∉
      (fetch_espn_injuries [⟨"1", "MIA", [("John Doe", "Suspended")]⟩]).injured := by
  decide

/-! ## Facts about the roster index (claim C3) -/

theorem rosterEntryStep_player_to_team (abbr : String) :
    ∀ (r : List (String × String)) (ns : List String) (acc : RosterAcc),
      (r.foldl (rosterEntryStep abbr) (ns, acc)).2.player_to_team =
        ((r.filter (fun p => ¬ p.1 = "")).map (fun p => (p.1, abbr))).reverse ++
          acc.player_to_team := by
  intro r
  induction r with
  | nil => intro ns acc; simp
  | cons p r ih =>
    intro ns acc
    rw [List.foldl_cons]
    by_cases hp : p.1 = ""
    · rw [show rosterEntryStep abbr (ns, acc) p = (ns, acc) from by
        unfold rosterEntryStep; rw [if_pos hp]]
      rw [ih ns acc]
      simp [List.filter_cons, hp]
    · rw [show rosterEntryStep abbr (ns, acc) p =
        ((if p.1 ∈ ns then ns else p.1 :: ns),
         { roster_index := acc.roster_index
           player_to_team := (p.1, abbr) :: acc.player_to_team
           player_to_athlete_id :=
             if p.2 ≠ "" then (p.1, p.2) :: acc.player_to_athlete_id
             else acc.player_to_athlete_id }) from by
        unfold rosterEntryStep; rw [if_neg hp]]
      rw [ih]
      simp [List.filter_cons, hp]

theorem rosterTeamStep_player_to_team (tm : List (String × TeamMeta))
    (rf : String → List (String × String)) :
    ∀ (tds : List String) (acc : RosterAcc),
      (tds.foldl (rosterTeamStep tm rf) acc).player_to_team =
        (roster_assignments tds tm rf).reverse ++ acc.player_to_team := by
  intro tds
  induction tds with
  | nil => intro acc; simp [roster_assignments]
  | cons tn tds ih =>
    intro acc
    rw [List.foldl_cons, ih]
    unfold roster_assignments
    rw [List.flatMap_cons, List.reverse_append, List.append_assoc]
    show (roster_assignments tds tm rf).reverse ++ _ = _
    congr 1
    unfold rosterTeamStep
    cases h : tm.lookup tn with
    | none => dsimp only; simp
    | some meta =>
      dsimp only
      by_cases hm : meta.abbr = "" ∨ meta.id = ""
      · rw [if_pos hm, if_pos hm]
        simp
      · rw [if_neg hm, if_neg hm]
        dsimp only
        exact rosterEntryStep_player_to_team meta.abbr (rf meta.id) [] acc

/-- C3 amended: the inner roster loop assigns
`player_to_team[nm] = abbr` unconditionally (no presence check), so the
mapping equals the reversed list of all `(name, abbr)` assignments and a
first-match lookup returns the abbreviation of the *last* team in
iteration order whose roster carries the name — last-seen wins, and a
key is overwritten whenever two processed rosters share a name. -/
theorem player_to_team_last_write_wins (tds : List String)
    (tm : List (String × TeamMeta)) (rf : String → List (String × String)) :
    (build_today_roster_index tds tm rf).player_to_team =
      (roster_assignments tds tm rf).reverse := by
  unfold build_today_roster_index
  rw [rosterTeamStep_player_to_team tm rf tds ⟨[], [], []⟩]
  simp

/-- C3 counterexample: two teams processed in order, both with
"John Smith" on the roster; the mapping resolves to the second team's
abbreviation, not the first's — first-seen does not win. -/
theorem roster_index_keeps_last_team :
    ((build_today_roster_index ["Alpha", "Beta"]
        [("Alpha", ⟨"1", "AAA"⟩), ("Beta", ⟨"2", "BBB"⟩)]
        (fun tid => if tid = "1" then [("John Smith", "11")]
          else if tid = "2" then [("John Smith", "22")]
          else [])).player_to_team.lookup "John Smith" ≠ some "AAA") ∧
    ((build_today_roster_index ["Alpha", "Beta"]
        [("Alpha", ⟨"1", "AAA"⟩), ("Beta", ⟨"2", "BBB"⟩)]
        (fun tid => if tid = "1" then [("John Smith", "11")]
          else if tid = "2" then [("John Smith", "22")]
          else [])).player_to_team.lookup "John Smith" = some "BBB") := by
  decide

/-! ## Facts about `sigmoid`, `clamp` and the edge score (claims C4, C2, C5) -/

theorem sigmoid_pos (x : ℝ) : 0 < sigmoid x := by
  unfold sigmoid
  positivity

theorem sigmoid_lt_one (x : ℝ) : sigmoid x < 1 := by
  unfold sigmoid
  rw [div_lt_one (by positivity)]
  linarith [Real.exp_pos (-x)]

theorem sigmoid_strictMono : StrictMono sigmoid := by
  intro a b hab
  unfold sigmoid
  have hexp : Real.exp (-b) < Real.exp (-a) := Real.exp_lt_exp.mpr (neg_lt_neg hab)
  exact one_div_lt_one_div_of_lt (by positivity) (by linarith)

theorem sigmoid_half_lt : sigmoid (1 / 2) < 13 / 20 := by
  have h1 : Real.exp (1 / 2) * Real.exp (1 / 2) = Real.exp 1 := by
    rw [← Real.exp_add]
    norm_num
  have h2 := Real.exp_one_lt_d9
  have hpos := Real.exp_pos (1 / 2 : ℝ)
  have h3 : Real.exp (1 / 2) < 13 / 7 := by nlinarith
  have h5 : (7 : ℝ) / 13 < Real.exp (-(1 / 2)) := by
    rw [Real.exp_neg, show ((7 : ℝ) / 13) = ((13 : ℝ) / 7)⁻¹ by norm_num]
    exact inv_lt_inv_of_lt hpos h3
  unfold sigmoid
  rw [div_lt_iff (by positivity)]
  linarith

/-- Unfolding of `edge_score_from_projection` for a non-"under" side. -/
theorem edge_score_eq (proj line stdev : ℝ) (side : String) (hside : ¬ side = "under") :
    edge_score_from_projection proj line side stdev =
      if line ≤ 0 then 0.0
      else clamp (100.0 * sigmoid ((proj - line) / max 1.0 (line * 0.12)) *
        (1.0 - min 0.20 (stdev * 0.15))) 0.0 100.0 := by
  simp only [edge_score_from_projection]
  rw [if_neg hside]

/-- Unfolding of `edge_score_from_projection` for the "under" side. -/
theorem edge_score_under_eq (proj line stdev : ℝ) :
    edge_score_from_projection proj line "under" stdev =
      if line ≤ 0 then 0.0
      else clamp (100.0 * sigmoid (-(proj - line) / max 1.0 (line * 0.12)) *
        (1.0 - min 0.20 (stdev * 0.15))) 0.0 100.0 := by
  simp only [edge_score_from_projection]
  simp

theorem edge_formula_mono {d1 d2 line stdev : ℝ} (h : d1 ≤ d2) :
    clamp (100.0 * sigmoid (d1 / max 1.0 (line * 0.12)) *
        (1.0 - min 0.20 (stdev * 0.15))) 0.0 100.0 ≤
      clamp (100.0 * sigmoid (d2 / max 1.0 (line * 0.12)) *
        (1.0 - min 0.20 (stdev * 0.15))) 0.0 100.0 := by
  have hs0 : (0 : ℝ) < max 1.0 (line * 0.12) :=
    lt_of_lt_of_le (by norm_num) (le_max_left _ _)
  have hpen : (0 : ℝ) ≤ 1.0 - min 0.20 (stdev * 0.15) := by
    have := min_le_left (0.20 : ℝ) (stdev * 0.15)
    linarith
  have hdiv : d1 / max 1.0 (line * 0.12) ≤ d2 / max 1.0 (line * 0.12) :=
    div_le_div_of_nonneg_right h hs0.le
  have hsig := sigmoid_strictMono.monotone hdiv
  exact max_le_max le_rfl (min_le_min le_rfl
    (mul_le_mul_of_nonneg_right (mul_le_mul_of_nonneg_left hsig (by norm_num)) hpen))

/-- C4: the edge score is always within `[0, 100]`, and for a fixed
line, side and line dispersion it is monotonically non-decreasing in the
gap magnitude when the side matches the sign of the gap (over with
`proj = line + g`, under with `proj = line - g`, `0 ≤ g1 ≤ g2`). -/
theorem edge_score_bounded_and_monotone (proj line stdev g1 g2 : ℝ) (side : String)
    (hg : 0 ≤ g1) (hgg : g1 ≤ g2) :
    (0 ≤ edge_score_from_projection proj line side stdev ∧
      edge_score_from_projection proj line side stdev ≤ 100) ∧
    edge_score_from_projection (line + g1) line "over" stdev ≤
      edge_score_from_projection (line + g2) line "over" stdev ∧
    edge_score_from_projection (line - g1) line "under" stdev ≤
      edge_score_from_projection (line - g2) line "under" stdev := by
  refine ⟨?_, ?_, ?_⟩
  · simp only [edge_score_from_projection, clamp]
    split_ifs with h h2
    · norm_num
    · exact ⟨le_trans (by norm_num) (le_max_left (0.0 : ℝ) _),
        le_trans (max_le (by norm_num) (min_le_left _ _)) (by norm_num)⟩
    · exact ⟨le_trans (by norm_num) (le_max_left (0.0 : ℝ) _),
        le_trans (max_le (by norm_num) (min_le_left _ _)) (by norm_num)⟩
  · rw [edge_score_eq _ _ _ _ (by decide), edge_score_eq _ _ _ _ (by decide)]
    split_ifs with h
    · exact le_refl _
    · exact edge_formula_mono (by linarith)
  · rw [edge_score_under_eq, edge_score_under_eq]
    split_ifs with h
    · exact le_refl _
    · exact edge_formula_mono (by linarith)

/-- Witness for `edge_score_bounded_and_monotone` at a concrete input. -/
theorem edge_score_bounded_and_monotone_witness :
    (0 : ℝ) ≤ 1 ∧ (1 : ℝ) ≤ 2 ∧
    ((0 ≤ edge_score_from_projection 12 10 "over" 0 ∧
        edge_score_from_projection 12 10 "over" 0 ≤ 100) ∧
      edge_score_from_projection (10 + 1) 10 "over" 0 ≤
        edge_score_from_projection (10 + 2) 10 "over" 0 ∧
      edge_score_from_projection (10 - 1) 10 "under" 0 ≤
        edge_score_from_projection (10 - 2) 10 "under" 0) :=
  ⟨by norm_num, by norm_num,
    edge_score_bounded_and_monotone 12 10 0 1 2 "over" (by norm_num) (by norm_num)⟩

theorem edge_formula_lt (line stdev d : ℝ) (hsd : 0 ≤ stdev) (hd : d < 1 / 2) :
    clamp (100.0 * sigmoid (d / max 1.0 (line * 0.12)) *
      (1.0 - min 0.20 (stdev * 0.15))) 0.0 100.0 < 65 := by
  have hs1 : (1 : ℝ) ≤ max 1.0 (line * 0.12) :=
    le_trans (by norm_num) (le_max_left _ _)
  have hs0 : (0 : ℝ) < max 1.0 (line * 0.12) := by linarith
  have hz : d / max 1.0 (line * 0.12) < 1 / 2 := by
    rcases le_or_lt d 0 with hd0 | hd0
    · have : d / max 1.0 (line * 0.12) ≤ 0 := by
        rw [div_le_iff hs0]
        simpa using hd0
      linarith
    · have h1 : d / max 1.0 (line * 0.12) ≤ d / 1 :=
        div_le_div_of_nonneg_left hd0.le (by norm_num) hs1
      rw [div_one] at h1
      linarith
  have hsig : sigmoid (d / max 1.0 (line * 0.12)) < 13 / 20 :=
    lt_trans (sigmoid_strictMono hz) sigmoid_half_lt
  have hpen1 : 1.0 - min 0.20 (stdev * 0.15) ≤ 1 := by
    have : (0 : ℝ) ≤ min 0.20 (stdev * 0.15) :=
      le_min (by norm_num) (mul_nonneg hsd (by norm_num))
    linarith
  have hnn : (0 : ℝ) ≤ 100.0 * sigmoid (d / max 1.0 (line * 0.12)) :=
    mul_nonneg (by norm_num) (sigmoid_pos _).le
  have hcore : 100.0 * sigmoid (d / max 1.0 (line * 0.12)) *
      (1.0 - min 0.20 (stdev * 0.15)) < 65 := by
    have h1 := mul_le_of_le_one_right hnn hpen1
    have h2 : 100.0 * sigmoid (d / max 1.0 (line * 0.12)) < 65 := by linarith
    linarith
  exact max_lt (by norm_num) (lt_of_le_of_lt (min_le_right _ _) hcore)

/-- C2: with a nonnegative cross-book dispersion, any gap between the
adjusted projection and the line of magnitude below the deadzone keeps
the best of the two side scores strictly below the emission threshold
65, so the pipeline emits no pick for that combination (the item filter
drops every score below 65). -/
theorem deadzone_no_pick (proj line stdev : ℝ) (prop_type : String) (hsd : 0 ≤ stdev)
    (hgap : |proj - line| < deadzone prop_type) :
    (score_prop_sides proj line stdev).1 < 65 := by
  rw [deadzone] at hgap
  have hover : edge_score_from_projection proj line "over" stdev < 65 := by
    rw [edge_score_eq proj line stdev "over" (by decide)]
    split_ifs with h
    · norm_num
    · exact edge_formula_lt line stdev _ hsd (lt_of_le_of_lt (le_abs_self _) hgap)
  have hunder : edge_score_from_projection proj line "under" stdev < 65 := by
    rw [edge_score_under_eq]
    split_ifs with h
    · norm_num
    · exact edge_formula_lt line stdev _ hsd (lt_of_le_of_lt (neg_le_abs _) hgap)
  simp only [score_prop_sides]
  split_ifs with h
  · exact hunder
  · exact hover

/-- Witness for `deadzone_no_pick`: a gap of `0.2` on a line of `10`
with agreeing books scores below 65 on its best side. -/
theorem deadzone_no_pick_witness :
    (0 : ℝ) ≤ 0 ∧ |(10.2 : ℝ) - 10| < deadzone "points" ∧
    (score_prop_sides 10.2 10 0).1 < 65 := by
  have habs : |(10.2 : ℝ) - 10| < deadzone "points" := by
    rw [deadzone, show (10.2 : ℝ) - 10 = 0.2 by norm_num, abs_of_nonneg (by norm_num)]
    norm_num
  exact ⟨le_refl 0, habs, deadzone_no_pick 10.2 10 0 "points" (le_refl 0) habs⟩

/-- C5: for a positive line, a nonnegative dispersion and a gap outside
the deadzone, the chosen side is `OVER` exactly when the adjusted
projection exceeds the line and `UNDER` exactly when it falls short. -/
theorem side_matches_sign (proj line stdev : ℝ) (prop_type : String) (hsd : 0 ≤ stdev)
    (hline : 0 < line) (hgap : deadzone prop_type ≤ |proj - line|) :
    ((score_prop_sides proj line stdev).2 = "OVER" ↔ line < proj) ∧
    ((score_prop_sides proj line stdev).2 = "UNDER" ↔ proj < line) := by
  rw [deadzone] at hgap
  have hs0 : (0 : ℝ) < max 1.0 (line * 0.12) :=
    lt_of_lt_of_le (by norm_num) (le_max_left _ _)
  have hpen1 : 1.0 - min 0.20 (stdev * 0.15) ≤ 1 := by
    have : (0 : ℝ) ≤ min 0.20 (stdev * 0.15) :=
      le_min (by norm_num) (mul_nonneg hsd (by norm_num))
    linarith
  have hpen0 : (0 : ℝ) < 1.0 - min 0.20 (stdev * 0.15) := by
    have := min_le_left (0.20 : ℝ) (stdev * 0.15)
    linarith
  have hid : ∀ d : ℝ,
      clamp (100.0 * sigmoid (d / max 1.0 (line * 0.12)) *
        (1.0 - min 0.20 (stdev * 0.15))) 0.0 100.0 =
      100.0 * sigmoid (d / max 1.0 (line * 0.12)) * (1.0 - min 0.20 (stdev * 0.15)) := by
    intro d
    have hpos : (0 : ℝ) < 100.0 * sigmoid (d / max 1.0 (line * 0.12)) *
        (1.0 - min 0.20 (stdev * 0.15)) :=
      mul_pos (mul_pos (by norm_num) (sigmoid_pos _)) hpen0
    have hlt : 100.0 * sigmoid (d / max 1.0 (line * 0.12)) *
        (1.0 - min 0.20 (stdev * 0.15)) ≤ 100.0 := by
      have h1 : 100.0 * sigmoid (d / max 1.0 (line * 0.12)) ≤ 100.0 := by
        have := sigmoid_lt_one (d / max 1.0 (line * 0.12))
        linarith
      have h2 := mul_le_of_le_one_right
        (mul_nonneg (by norm_num : (0:ℝ) ≤ 100.0) (sigmoid_pos
          (d / max 1.0 (line * 0.12))).le) hpen1
      linarith
    rw [clamp, min_eq_right hlt,
      max_eq_right ((by norm_num : (0.0 : ℝ) ≤ 0).trans hpos.le)]
  have hcomp : (edge_score_from_projection proj line "under" stdev >
      edge_score_from_projection proj line "over" stdev) ↔ proj < line := by
    rw [edge_score_eq proj line stdev "over" (by decide), edge_score_under_eq,
      if_neg (not_le.mpr hline), if_neg (not_le.mpr hline), hid, hid]
    rw [gt_iff_lt, mul_lt_mul_right hpen0,
      mul_lt_mul_left (by norm_num : (0 : ℝ) < 100.0)]
    rw [sigmoid_strictMono.lt_iff_lt, neg_div]
    constructor
    · intro h
      have hdd : (proj - line) / max 1.0 (line * 0.12) < 0 := by linarith
      rw [div_lt_iff hs0, zero_mul] at hdd
      linarith
    · intro h
      have hdd : (proj - line) / max 1.0 (line * 0.12) < 0 := by
        rw [div_lt_iff hs0, zero_mul]
        linarith
      linarith
  simp only [score_prop_sides]
  split_ifs with h
  · dsimp only
    have hp : proj < line := hcomp.mp h
    refine ⟨⟨fun hc => absurd hc (by decide), fun hc => absurd hp (lt_asymm hc)⟩, ?_⟩
    simp [hp]
  · dsimp only
    have h1 : ¬ proj < line := fun hc => h (hcomp.mpr hc)
    have h2 : proj ≠ line := by
      intro he
      rw [he] at hgap
      simp at hgap
      linarith
    have hp : line < proj := lt_of_le_of_ne (not_lt.mp h1) (Ne.symm h2)
    refine ⟨?_, ⟨fun hc => absurd hc (by decide), fun hc => absurd hp (lt_asymm hc)⟩⟩
    simp [hp]

/-- Witness for `side_matches_sign`: a projection of 12 on a line of 10
is chosen as `OVER` and not `UNDER`. -/
theorem side_matches_sign_witness :
    (0 : ℝ) ≤ 0 ∧ (0 : ℝ) < 10 ∧ deadzone "points" ≤ |(12 : ℝ) - 10| ∧
    (((score_prop_sides 12 10 0).2 = "OVER" ↔ (10 : ℝ) < 12) ∧
      ((score_prop_sides 12 10 0).2 = "UNDER" ↔ (12 : ℝ) < 10)) := by
  have hgap : deadzone "points" ≤ |(12 : ℝ) - 10| := by
    rw [deadzone, show (12 : ℝ) - 10 = 2 by norm_num, abs_of_nonneg (by norm_num)]
    norm_num
  exact ⟨le_refl 0, by norm_num, hgap,
    side_matches_sign 12 10 0 "points" (le_refl 0) (by norm_num) hgap⟩

/-! ## Facts about the consensus median (claim C6) -/

/-- C6: for a nonempty list of bookmaker point quotes, the consensus
median is invariant under any permutation of the quotes, and it lies
between some element below it and some element above it (hence between
the minimum and the maximum of the input set). -/
theorem median_perm_invariant_and_bounded (l₁ l₂ : List ℝ) (h : l₁ ≠ [])
    (hp : List.Perm l₁ l₂) :
    statistics_median l₁ = statistics_median l₂ ∧
    (∃ a ∈ l₁, a ≤ statistics_median l₁) ∧
    (∃ b ∈ l₁, statistics_median l₁ ≤ b) := by
  have hs₁ : List.Sorted (· ≤ ·) (l₁.insertionSort (· ≤ ·)) :=
    List.sorted_insertionSort _ l₁
  have hs₂ : List.Sorted (· ≤ ·) (l₂.insertionSort (· ≤ ·)) :=
    List.sorted_insertionSort _ l₂
  have hperm : List.Perm (l₁.insertionSort (· ≤ ·)) (l₂.insertionSort (· ≤ ·)) :=
    (List.perm_insertionSort _ l₁).trans (hp.trans (List.perm_insertionSort _ l₂).symm)
  have hsort_eq : l₁.insertionSort (· ≤ ·) = l₂.insertionSort (· ≤ ·) :=
    List.eq_of_perm_of_sorted hperm hs₁ hs₂
  have hmed : statistics_median l₁ = statistics_median l₂ := by
    simp only [statistics_median]
    rw [hsort_eq, hp.length_eq]
  refine ⟨hmed, ?_⟩
  have hslen : (l₁.insertionSort (· ≤ ·)).length = l₁.length :=
    List.length_insertionSort _ l₁
  have hne : l₁.length ≠ 0 := fun h0 => h (List.length_eq_zero.mp h0)
  have hj : l₁.length / 2 < (l₁.insertionSort (· ≤ ·)).length := by
    rw [hslen]
    exact Nat.div_lt_self (Nat.pos_of_ne_zero hne) (by norm_num)
  have hmemj : (l₁.insertionSort (· ≤ ·)).get ⟨l₁.length / 2, hj⟩ ∈ l₁ :=
    (List.perm_insertionSort _ l₁).subset (List.get_mem _ _ hj)
  by_cases hodd : l₁.length % 2 = 1
  · have heq : statistics_median l₁ =
        (l₁.insertionSort (· ≤ ·)).get ⟨l₁.length / 2, hj⟩ := by
      simp only [statistics_median]
      rw [if_pos hodd, List.getD_eq_getElem _ _ hj, List.get_eq_getElem]
    exact ⟨⟨_, hmemj, heq.ge⟩, ⟨_, hmemj, heq.le⟩⟩
  · have h2 : 2 ≤ l₁.length := by omega
    have hi : l₁.length / 2 - 1 < (l₁.insertionSort (· ≤ ·)).length := by
      rw [hslen]
      omega
    have hij : l₁.length / 2 - 1 < l₁.length / 2 := by omega
    have hmemi : (l₁.insertionSort (· ≤ ·)).get ⟨l₁.length / 2 - 1, hi⟩ ∈ l₁ :=
      (List.perm_insertionSort _ l₁).subset (List.get_mem _ _ hi)
    have hle : (l₁.insertionSort (· ≤ ·)).get ⟨l₁.length / 2 - 1, hi⟩ ≤
        (l₁.insertionSort (· ≤ ·)).get ⟨l₁.length / 2, hj⟩ :=
      hs₁.rel_get_of_lt (Fin.mk_lt_mk.mpr hij)
    have heq : statistics_median l₁ =
        ((l₁.insertionSort (· ≤ ·)).get ⟨l₁.length / 2 - 1, hi⟩ +
          (l₁.insertionSort (· ≤ ·)).get ⟨l₁.length / 2, hj⟩) / 2 := by
      simp only [statistics_median]
      rw [if_neg hodd, List.getD_eq_getElem _ _ hi, List.getD_eq_getElem _ _ hj,
        List.get_eq_getElem, List.get_eq_getElem]
    constructor
    · refine ⟨_, hmemi, ?_⟩
      rw [heq]
      linarith
    · refine ⟨_, hmemj, ?_⟩
      rw [heq]
      linarith

/-- Witness for `median_perm_invariant_and_bounded` on a concrete
three-quote book list and a permutation of it. -/
theorem median_perm_invariant_and_bounded_witness :
    ([(2 : ℝ), 1, 3] ≠ []) ∧ List.Perm [(2 : ℝ), 1, 3] [1, 2, 3] ∧
    (statistics_median [(2 : ℝ), 1, 3] = statistics_median [1, 2, 3] ∧
      (∃ a ∈ [(2 : ℝ), 1, 3], a ≤ statistics_median [(2 : ℝ), 1, 3]) ∧
      (∃ b ∈ [(2 : ℝ), 1, 3], statistics_median [(2 : ℝ), 1, 3] ≤ b)) := by
  have hperm : List.Perm [(2 : ℝ), 1, 3] [1, 2, 3] := List.Perm.swap 1 2 [3]
  exact ⟨by simp, hperm,
    median_perm_invariant_and_bounded [(2 : ℝ), 1, 3] [1, 2, 3] (by simp) hperm⟩

/-! ## Facts about the pipeline (claims C1, C10) -/

theorem processItem_some {league : String}
    {market_to_prop player_to_team : List (String × String)}
    {roster_index : List (String × List String)} {injured_set : List String}
    {team_inj_counts : List (String × ℝ)} {home_abbr away_abbr : String}
    {spread_home spread_away total spread_abs : Option ℝ} {matchup time_str : String}
    {item : PropItem} {p : Pick}
    (h : processItem league market_to_prop player_to_team roster_index injured_set
      team_inj_counts home_abbr away_abbr spread_home spread_away total spread_abs
      matchup time_str item = some p) :
    p.player = item.player ∧ item.player ∉ injured_set ∧ 65 ≤ p.edge_score := by
  unfold processItem at h
  split at h
  · exact absurd h (by simp)
  · dsimp only at h
    split at h
    · exact absurd h (by simp)
    · split_ifs at h with hinj hscore
      cases h
      exact ⟨rfl, hinj, not_lt.mp hscore⟩

theorem picksForGame_mem {league : String}
    {market_to_prop name_to_abbr player_to_team : List (String × String)}
    {roster_index : List (String × List String)} {injured_set : List String}
    {team_inj_counts : List (String × ℝ)} {g : GameData} {p : Pick}
    (h : p ∈ picksForGame league market_to_prop name_to_abbr player_to_team roster_index
      injured_set team_inj_counts g) :
    p.player ∉ injured_set ∧ 65 ≤ p.edge_score := by
  unfold picksForGame at h
  dsimp only at h
  obtain ⟨item, _, heq⟩ := List.mem_filterMap.mp h
  obtain ⟨h1, h2, h3⟩ := processItem_some heq
  rw [h1]
  exact ⟨h2, h3⟩

theorem generate_mem {league : String}
    {name_to_abbr player_to_team : List (String × String)}
    {roster_index : List (String × List String)} {injured_set : List String}
    {team_inj_counts : List (String × ℝ)} {games : List GameData} {keep_top : ℕ}
    {p : Pick}
    (h : p ∈ generate_top_props_for_league league games name_to_abbr player_to_team
      roster_index injured_set team_inj_counts keep_top) :
    p.player ∉ injured_set ∧ 65 ≤ p.edge_score := by
  unfold generate_top_props_for_league at h
  dsimp only at h
  have h1 := List.take_subset _ _ h
  have h2 := (List.perm_insertionSort descByEdge _).subset h1
  obtain ⟨g, _, hpg⟩ := List.mem_flatMap.mp h2
  by_cases hid : g.id = ""
  · rw [if_pos hid] at hpg
    exact absurd hpg (by simp)
  · rw [if_neg hid] at hpg
    exact picksForGame_mem hpg

/-- C1: a player name in the injury set never appears as the player of
an emitted pick of the same run — the item loop drops any quote for an
injured player before scoring. -/
theorem no_pick_for_injured (league : String) (games : List GameData)
    (name_to_abbr player_to_team : List (String × String))
    (roster_index : List (String × List String)) (injured_set : List String)
    (team_inj_counts : List (String × ℝ)) (keep_top : ℕ) (name : String)
    (hname : name ∈ injured_set) :
    name ∉ (generate_top_props_for_league league games name_to_abbr player_to_team
      roster_index injured_set team_inj_counts keep_top).map Pick.player := by
  intro hmem
  obtain ⟨p, hp, hpe⟩ := List.mem_map.mp hmem
  have hni := (generate_mem hp).1
  rw [hpe] at hni
  exact hni hname

/-- Witness for `no_pick_for_injured` at a concrete run. -/
theorem no_pick_for_injured_witness :
    ("X" ∈ ["X"]) ∧
    "X" ∉ (generate_top_props_for_league "nba" [] [] [] [] ["X"] [] 8).map Pick.player :=
  ⟨by simp, no_pick_for_injured "nba" [] [] [] [] ["X"] [] 8 "X" (by simp)⟩

/-- C10: every emitted pick has an edge score of at least 65, the
returned list is sorted by edge score in non-increasing order, and at
most `keep_top` picks are returned (the script's default is 8). -/
theorem top_props_threshold_sorted_capped (league : String) (games : List GameData)
    (name_to_abbr player_to_team : List (String × String))
    (roster_index : List (String × List String)) (injured_set : List String)
    (team_inj_counts : List (String × ℝ)) (keep_top : ℕ) :
    (∀ p ∈ generate_top_props_for_league league games name_to_abbr player_to_team
        roster_index injured_set team_inj_counts keep_top, 65 ≤ p.edge_score) ∧
    List.Sorted descByEdge (generate_top_props_for_league league games name_to_abbr
      player_to_team roster_index injured_set team_inj_counts keep_top) ∧
    (generate_top_props_for_league league games name_to_abbr player_to_team
      roster_index injured_set team_inj_counts keep_top).length ≤ keep_top := by
  refine ⟨fun p hp => (generate_mem hp).2, ?_, ?_⟩
  · unfold generate_top_props_for_league
    dsimp only
    exact List.Pairwise.sublist (List.take_sublist _ _)
      (List.sorted_insertionSort descByEdge _)
  · unfold generate_top_props_for_league
    dsimp only
    exact List.length_take_le _ _

end Dashboard
